import Mathlib

/-!
Verification of the order subsystem of the BuildFast-Shop storefront
(`src/features/orders/services/orderService.js`), shallowly embedded in Lean.

The hosted datastore is modelled as an explicit in-memory state (`DB`): a list of
order rows and a list of order-item rows plus a counter supplying server-assigned
ids. Currency values are modelled as exact rationals. Persistence failures that a
claim needs are injected through an explicit `PersistEnv` oracle; all other
datastore calls are modelled as succeeding deterministically. The orders
migration (its SQL is embedded in `src/README.md`, section "BuildFast Shop =
Orders Table Migration") supplies the DECIMAL(10,2) column semantics and the
`update_order_total_on_items` trigger, embedded below as `roundCents`,
`calculate_order_total`, `validate_order_total` and `insertOrderItems`.
-/

set_option autoImplicit false

namespace BuildFast

/-- An authenticated principal as returned by the authentication collaborator
(`supabase.auth.getUser`); `Option Principal` with `none` models an
unauthenticated session. -/
structure Principal where
  id : String
  email : String
deriving DecidableEq, Repr

/-- One cart line as supplied by the cart collaborator to `createOrder`:
`{product_id, quantity, price}` (the JS code also reads a fallback `id` field). -/
structure CartItem where
  product_id : String
  id : String
  quantity : Nat
  price : ℚ
deriving DecidableEq, Repr

/-- The `orderData` argument of `createOrder`. -/
structure OrderData where
  shippingAddress : String
deriving DecidableEq, Repr

/-- A row of the `orders` relation. `created_at` is omitted (no claim concerns
it); `updated_at` is an abstract timestamp. -/
structure OrderRow where
  id : Nat
  customer_id : String
  total_amount : ℚ
  status : String
  shipping_address : String
  updated_at : Nat
deriving DecidableEq, Repr

/-- A row of the `order_items` relation, with exactly the fields the service
inserts (`order_id, product_id, quantity, price_at_time`); the row id is
server-assigned and never read by the service, so it is omitted. -/
structure OrderItemRow where
  order_id : Nat
  product_id : String
  quantity : Nat
  price_at_time : ℚ
deriving DecidableEq, Repr

/-- The persistence collaborator's state: the two relations plus the counter
from which server-assigned order ids are drawn. -/
structure DB where
  nextId : Nat
  orders : List OrderRow
  order_items : List OrderItemRow
deriving DecidableEq, Repr

/-- An error value; only the `message` field of a JS `Error` is modelled. -/
structure Err where
  message : String
deriving DecidableEq, Repr

/-- The discriminated `{data, error}` result every service function returns
(errors are caught and returned, never rethrown to the caller). -/
structure ServiceResult (α : Type) where
  data : Option α
  error : Option Err
deriving DecidableEq, Repr

/-- Failure-injection oracle for the two datastore writes `createOrder`
performs: the insert into `orders` and the insert into `order_items`. -/
structure PersistEnv where
  orderInsertFails : Bool
  itemsInsertFails : Bool
deriving DecidableEq, Repr

/-- The `validStatuses` list of `updateOrderStatus`. -/
def validStatuses : List String :=
  ["pending", "processing", "shipped", "delivered", "cancelled"]

/-- Lookup of an order row by id, as the datastore's `.eq('id', orderId)` filter
combined with `.single()` (first matching row, error when none). -/
def findOrder (db : DB) (orderId : Nat) : Option OrderRow :=
  db.orders.find? (fun o => o.id == orderId)

/-- The item rows belonging to one order. -/
def itemsOf (db : DB) (orderId : Nat) : List OrderItemRow :=
  db.order_items.filter (fun i => i.order_id == orderId)

/-- Embedding of `getOrderById`: reads the order row and its items; a missing
row makes `.single()` error, which the catch block turns into `{data: null,
error}`. -/
def getOrderById (db : DB) (orderId : Nat) : ServiceResult (OrderRow × List OrderItemRow) :=
  match findOrder db orderId with
  | none => { data := none, error := some { message := "Error fetching order" } }
  | some o => { data := some (o, itemsOf db orderId), error := none }

/-- PostgreSQL storage rounding for the DECIMAL(10,2) columns of the orders
migration (src/README.md, `orders.total_amount` and `order_items.price_at_time`):
round to two fractional digits, halves away from zero. The 10-digit precision
bound is not modelled. -/
def roundCents (q : ℚ) : ℚ :=
  if 0 ≤ q then ((⌊q * 100 + 1/2⌋ : ℤ) : ℚ) / 100
  else -((⌊-(q * 100) + 1/2⌋ : ℤ) : ℚ) / 100

/-- Embedding of the SQL function `calculate_order_total` of the orders
migration (src/README.md): `COALESCE(SUM(quantity * price_at_time), 0)` over
the order's current items, returned as DECIMAL(10,2). -/
def calculate_order_total (db : DB) (order_uuid : Nat) : ℚ :=
  roundCents (((itemsOf db order_uuid).map
    (fun i => (i.quantity : ℚ) * i.price_at_time)).sum)

/-- Embedding of the trigger function `validate_order_total` of the orders
migration (src/README.md): recompute the order total and, when the order row's
stored `total_amount` differs, update it (a missing order row makes the SQL
comparison against NULL false, so nothing is updated). The UPDATE also passes
through the `update_orders_updated_at` trigger, but NOW() inside the firing
transaction is the very timestamp the surrounding operation wrote, so
`updated_at` keeps its value here. -/
def validate_order_total (db : DB) (order_uuid : Nat) : DB :=
  let calculated_total := calculate_order_total db order_uuid
  match findOrder db order_uuid with
  | none => db
  | some o =>
      if o.total_amount ≠ calculated_total then
        { db with orders := db.orders.map (fun r =>
            if r.id == order_uuid then { r with total_amount := calculated_total } else r) }
      else db

/-- A multi-row insert into `order_items`: the statement inserts every row,
after which the AFTER INSERT FOR EACH ROW trigger `update_order_total_on_items`
(src/README.md) runs `validate_order_total` once per inserted row — hence not
at all for a zero-row insert. -/
def insertOrderItems (db : DB) (rows : List OrderItemRow) : DB :=
  rows.foldl (fun d r => validate_order_total d r.order_id)
    { db with order_items := db.order_items ++ rows }

/-- The `cartItems.reduce((sum, item) => sum + (item.price * item.quantity), 0)`
computation of `createOrder`, with JS numbers modelled as exact rationals. -/
def totalAmountOf (cartItems : List CartItem) : ℚ :=
  cartItems.foldl (fun sum item => sum + item.price * (item.quantity : ℚ)) 0

/-- The `item.product_id || item.id` fallback of `createOrder`; a missing
`product_id` is modelled as the empty string (both are falsy in JS). -/
def cartProductId (item : CartItem) : String :=
  if item.product_id == "" then item.id else item.product_id

/-- Embedding of `createOrder`: checks authentication, computes the total,
inserts the order row (stored at DECIMAL(10,2) scale), inserts one item row per
cart line (upon which the `update_order_total_on_items` trigger fires per row),
and re-reads the complete order via `getOrderById`. Each thrown error is caught
and returned as `{data: null, error}`; a failed item insert happens after the
order insert has committed and nothing removes the order row. -/
def createOrder (env : PersistEnv) (user : Option Principal) (now : Nat)
    (orderData : OrderData) (cartItems : List CartItem) (db : DB) :
    ServiceResult (OrderRow × List OrderItemRow) × DB :=
  match user with
  | none =>
      ({ data := none,
         error := some { message := "User must be authenticated to create an order" } }, db)
  | some u =>
      let totalAmount := totalAmountOf cartItems
      if env.orderInsertFails then
        ({ data := none, error := some { message := "orders insert failed" } }, db)
      else
        let order : OrderRow :=
          { id := db.nextId, customer_id := u.id, total_amount := roundCents totalAmount,
            status := "pending", shipping_address := orderData.shippingAddress,
            updated_at := now }
        let db1 : DB := { db with nextId := db.nextId + 1, orders := db.orders ++ [order] }
        if env.itemsInsertFails then
          ({ data := none, error := some { message := "order_items insert failed" } }, db1)
        else
          let orderItems : List OrderItemRow := cartItems.map (fun item =>
            { order_id := order.id, product_id := cartProductId item,
              quantity := item.quantity, price_at_time := roundCents item.price })
          let db2 : DB := insertOrderItems db1 orderItems
          (getOrderById db2 order.id, db2)

/-- Embedding of `updateOrderStatus`: rejects a `newStatus` outside
`validStatuses`, otherwise updates the matching row's status (the datastore also
refreshes `updated_at`, per the auto-updated column of ORDERS_SETUP.md) and
returns the updated row; a missing row makes `.single()` error. -/
def updateOrderStatus (now : Nat) (orderId : Nat) (newStatus : String) (db : DB) :
    ServiceResult OrderRow × DB :=
  if validStatuses.contains newStatus then
    match findOrder db orderId with
    | none =>
        ({ data := none, error := some { message := "Error updating order status" } }, db)
    | some o =>
        let updated : OrderRow := { o with status := newStatus, updated_at := now }
        ({ data := some updated, error := none },
         { db with
           orders := db.orders.map (fun r => if r.id == orderId then updated else r) })
  else
    ({ data := none,
       error := some { message :=
         "Invalid status. Must be one of: pending, processing, shipped, delivered, cancelled" } },
     db)

/-- Embedding of `cancelOrder`: reads the order, rejects a missing order and a
status outside pending/processing, and otherwise delegates to
`updateOrderStatus` with status cancelled. -/
def cancelOrder (now : Nat) (orderId : Nat) (db : DB) : ServiceResult OrderRow × DB :=
  match (getOrderById db orderId).data with
  | none => ({ data := none, error := some { message := "Order not found" } }, db)
  | some (o, _) =>
      if ["pending", "processing"].contains o.status then
        updateOrderStatus now orderId "cancelled" db
      else
        ({ data := none,
           error := some { message := "Only pending or processing orders can be cancelled" } },
         db)

/-- Embedding of `canCancelOrder`: the JS `['pending', 'processing']
.includes(order?.status)`, where a null or undefined argument makes
`order?.status` undefined and `includes` then returns false. -/
def canCancelOrder (order : Option OrderRow) : Bool :=
  match order with
  | none => false
  | some o => ["pending", "processing"].contains o.status

/-- The `ordersByStatus` object of `getOrderStats`. -/
structure OrdersByStatus where
  pending : Nat
  processing : Nat
  shipped : Nat
  delivered : Nat
  cancelled : Nat
deriving DecidableEq, Repr

/-- The statistics object `getOrderStats` computes. -/
structure OrderStats where
  totalOrders : Nat
  totalSpent : ℚ
  ordersByStatus : OrdersByStatus
deriving DecidableEq, Repr

/-- Embedding of `getOrderStats`: selects every order of the principal (no
status filter), then computes count, spend sum and per-status counts. -/
def getOrderStats (user : Option Principal) (db : DB) : ServiceResult OrderStats :=
  match user with
  | none => { data := none, error := some { message := "User must be authenticated" } }
  | some u =>
      let rows := db.orders.filter (fun o => o.customer_id == u.id)
      { data := some
          { totalOrders := rows.length,
            totalSpent := rows.foldl (fun sum o => sum + o.total_amount) 0,
            ordersByStatus :=
              { pending := (rows.filter (fun o => o.status == "pending")).length,
                processing := (rows.filter (fun o => o.status == "processing")).length,
                shipped := (rows.filter (fun o => o.status == "shipped")).length,
                delivered := (rows.filter (fun o => o.status == "delivered")).length,
                cancelled := (rows.filter (fun o => o.status == "cancelled")).length } },
        error := none }

/-- The allowed transition set of spec section 4.3, stated from the spec's words
so it can be compared against what `updateOrderStatus` enforces. -/
def allowedTransitions : List (String × String) :=
  [("pending", "processing"), ("processing", "shipped"), ("shipped", "delivered"),
   ("pending", "cancelled"), ("processing", "cancelled")]

/-- Freshness of a datastore state: every existing order id and every existing
item's order reference lies below the id counter, so a newly assigned id never
collides with existing rows. Every state reachable from the empty store has
this property. -/
def DB.fresh (db : DB) : Prop :=
  (∀ o ∈ db.orders, o.id < db.nextId) ∧ (∀ i ∈ db.order_items, i.order_id < db.nextId)

instance (db : DB) : Decidable db.fresh := by
  unfold DB.fresh; infer_instance

/-- The empty datastore. -/
def emptyDB : DB := { nextId := 1, orders := [], order_items := [] }

/-- Stated from the spec's words (2-digit currency precision): a rational amount
has at most two decimal digits iff 100 times it is an integer. -/
def TwoDecimal (q : ℚ) : Prop := ∃ n : ℤ, q * 100 = (n : ℚ)

/-- A fold that adds up an image equals the sum of the mapped list. -/
theorem foldl_add_map {α : Type} (g : α → ℚ) (l : List α) (a : ℚ) :
    l.foldl (fun s x => s + g x) a = a + (l.map g).sum := by
  induction l generalizing a with
  | nil => simp
  | cons x t ih => simp [List.foldl_cons, ih, add_assoc]

/-- The reduce of `createOrder` is the plain sum of price times quantity. -/
theorem totalAmountOf_eq_sum (cart : List CartItem) :
    totalAmountOf cart = (cart.map (fun item => item.price * (item.quantity : ℚ))).sum := by
  simpa using foldl_add_map (fun item => item.price * (item.quantity : ℚ)) cart 0

/-- Searching an append skips a prefix on which the predicate fails. -/
theorem find?_append_right {α : Type} (p : α → Bool) (l₁ l₂ : List α)
    (h : ∀ x ∈ l₁, ¬ p x) : (l₁ ++ l₂).find? p = l₂.find? p := by
  have h1 : l₁.find? p = none := List.find?_eq_none.mpr h
  simp [List.find?_append, h1]

/-- Searching by id after replacing every matching row yields the replacement
exactly when a matching row existed. -/
theorem find?_update (l : List OrderRow) (orderId : Nat) (upd : OrderRow)
    (hid : upd.id = orderId) :
    (l.map (fun r => if r.id == orderId then upd else r)).find? (fun r => r.id == orderId) =
      if (l.find? (fun r => r.id == orderId)).isSome then some upd else none := by
  induction l with
  | nil => rfl
  | cons a t ih =>
      by_cases ha : a.id = orderId
      · have hba : (a.id == orderId) = true := beq_iff_eq.mpr ha
        have hbu : (upd.id == orderId) = true := beq_iff_eq.mpr hid
        simp only [List.map_cons]
        rw [if_pos hba,
          List.find?_cons_of_pos (p := fun r : OrderRow => r.id == orderId) _ hbu,
          List.find?_cons_of_pos (p := fun r : OrderRow => r.id == orderId) _ hba]
        simp
      · have hba : (a.id == orderId) = false := by
          simpa [beq_eq_false_iff_ne] using ha
        simp only [List.map_cons]
        rw [if_neg (by simp [hba]),
          List.find?_cons_of_neg (p := fun r : OrderRow => r.id == orderId) _ (by simp [hba]),
          List.find?_cons_of_neg (p := fun r : OrderRow => r.id == orderId) _ (by simp [hba])]
        exact ih

/-- Unfolding of `updateOrderStatus` on a valid status and an existing order. -/
theorem updateOrderStatus_found (now orderId : Nat) (newStatus : String) (db : DB)
    (o : OrderRow) (hval : validStatuses.contains newStatus = true)
    (hfo : findOrder db orderId = some o) :
    updateOrderStatus now orderId newStatus db =
      ({ data := some { o with status := newStatus, updated_at := now }, error := none },
       { db with orders := db.orders.map (fun r =>
           if r.id == orderId then { o with status := newStatus, updated_at := now }
           else r) }) := by
  simp only [updateOrderStatus, hval, if_true, hfo]

/-- Unfolding of `cancelOrder` when the guard accepts the current status. -/
theorem cancelOrder_guard_pass (now orderId : Nat) (db : DB) (o : OrderRow)
    (hfo : findOrder db orderId = some o)
    (hcont : (["pending", "processing"] : List String).contains o.status = true) :
    cancelOrder now orderId db = updateOrderStatus now orderId "cancelled" db := by
  simp only [cancelOrder, getOrderById, hfo, hcont, if_true]

/-- Unfolding of `cancelOrder` when the guard rejects the current status. -/
theorem cancelOrder_guard_fail (now orderId : Nat) (db : DB) (o : OrderRow)
    (hfo : findOrder db orderId = some o)
    (hcont : (["pending", "processing"] : List String).contains o.status = false) :
    cancelOrder now orderId db =
      ({ data := none,
         error := some { message := "Only pending or processing orders can be cancelled" } },
       db) := by
  simp only [cancelOrder, getOrderById, hfo, hcont, Bool.false_eq_true, if_false]

/-- A map whose function fixes every member is the identity. -/
theorem map_eq_self_of {α : Type} (f : α → α) (l : List α) (h : ∀ x ∈ l, f x = x) :
    l.map f = l := by
  induction l with
  | nil => rfl
  | cons a t ih =>
      simp only [List.map_cons, h a (List.mem_cons_self a t)]
      rw [ih (fun x hx => h x (List.mem_cons_of_mem a hx))]

/-- Splitting a list of orders by the five valid statuses is exhaustive. -/
theorem filter_status_length_sum (l : List OrderRow)
    (h : ∀ o ∈ l, o.status ∈ validStatuses) :
    (l.filter (fun o => o.status == "pending")).length +
    (l.filter (fun o => o.status == "processing")).length +
    (l.filter (fun o => o.status == "shipped")).length +
    (l.filter (fun o => o.status == "delivered")).length +
    (l.filter (fun o => o.status == "cancelled")).length = l.length := by
  induction l with
  | nil => simp
  | cons a t ih =>
      have ha := h a (List.mem_cons_self a t)
      have ih' := ih (fun o ho => h o (List.mem_cons_of_mem a ho))
      simp only [validStatuses, List.mem_cons, List.not_mem_nil, or_false] at ha
      rcases ha with h1 | h1 | h1 | h1 | h1 <;>
        simp [List.filter_cons, h1] <;> omega

/-- Sums of cent-precision line subtotals stay at cent precision. -/
theorem sum_twoDecimal (l : List CartItem) (h : ∀ i ∈ l, TwoDecimal i.price) :
    TwoDecimal ((l.map (fun item => item.price * (item.quantity : ℚ))).sum) := by
  induction l with
  | nil => exact ⟨0, by simp⟩
  | cons a t ih =>
      obtain ⟨n, hn⟩ := h a (List.mem_cons_self a t)
      obtain ⟨m, hm⟩ := ih (fun i hi => h i (List.mem_cons_of_mem a hi))
      refine ⟨n * (a.quantity : ℤ) + m, ?_⟩
      simp only [List.map_cons, List.sum_cons, add_mul]
      rw [show a.price * (a.quantity : ℚ) * 100 = a.price * 100 * (a.quantity : ℚ) by ring,
        hn, hm]
      push_cast
      ring


/-- DECIMAL(10,2) storage is the identity on whole numbers of cents. -/
theorem roundCents_intCents (m : ℤ) : roundCents ((m : ℚ) / 100) = (m : ℚ) / 100 := by
  have hfloor : ∀ k : ℤ, (⌊(k : ℚ) + 1/2⌋ : ℤ) = k := fun k => by
    rw [Int.floor_int_add, Int.floor_eq_zero_iff.mpr (by constructor <;> norm_num)]
    ring
  unfold roundCents
  by_cases hm : (0 : ℚ) ≤ (m : ℚ) / 100
  · rw [if_pos hm, show (m : ℚ) / 100 * 100 = (m : ℚ) by field_simp, hfloor m]
  · rw [if_neg hm, show -((m : ℚ) / 100 * 100) = ((-m : ℤ) : ℚ) by push_cast; field_simp,
      hfloor (-m)]
    push_cast
    ring

/-- DECIMAL(10,2) storage is the identity on values of at most two decimal
digits. -/
theorem roundCents_twoDecimal (q : ℚ) (h : TwoDecimal q) : roundCents q = q := by
  obtain ⟨n, hn⟩ := h
  have hq : q = (n : ℚ) / 100 := by
    rw [eq_div_iff (by norm_num : (100 : ℚ) ≠ 0)]
    exact hn
  rw [hq, roundCents_intCents]

/-- DECIMAL(10,2) storage of zero is zero. -/
theorem roundCents_zero : roundCents 0 = 0 := by
  simpa using roundCents_intCents 0

/-- Sums of cent-precision line subtotals, quantity first, stay at cent
precision. -/
theorem sum_qty_price_twoDecimal (l : List CartItem) (h : ∀ i ∈ l, TwoDecimal i.price) :
    TwoDecimal ((l.map (fun item => (item.quantity : ℚ) * item.price)).sum) := by
  induction l with
  | nil => exact ⟨0, by simp⟩
  | cons a t ih =>
      obtain ⟨n, hn⟩ := h a (List.mem_cons_self a t)
      obtain ⟨m, hm⟩ := ih (fun i hi => h i (List.mem_cons_of_mem a hi))
      refine ⟨(a.quantity : ℤ) * n + m, ?_⟩
      simp only [List.map_cons, List.sum_cons, add_mul]
      rw [show (a.quantity : ℚ) * a.price * 100 = (a.quantity : ℚ) * (a.price * 100) by ring,
        hn, hm]
      push_cast
      ring

/-- Firing `validate_order_total` in the state shape of `createOrder` — the new
order row appended behind rows of other ids — sets that row's total to the
recomputed value and changes nothing else, whether or not the stored total
already agreed. -/
theorem validate_order_total_ctx (n : Nat) (os : List OrderRow) (ord : OrderRow)
    (its : List OrderItemRow) (oid : Nat) (hid : ord.id = oid)
    (hos : ∀ o ∈ os, o.id ≠ oid) :
    validate_order_total { nextId := n, orders := os ++ [ord], order_items := its } oid =
      { nextId := n,
        orders := os ++ [{ ord with
          total_amount := roundCents (((its.filter (fun i => i.order_id == oid)).map
            (fun i => (i.quantity : ℚ) * i.price_at_time)).sum) }],
        order_items := its } := by
  have hfind :
      findOrder { nextId := n, orders := os ++ [ord], order_items := its } oid = some ord := by
    unfold findOrder
    rw [find?_append_right _ os _ (fun o ho => by simp [hos o ho]),
      List.find?_cons_of_pos (p := fun r : OrderRow => r.id == oid) _ (beq_iff_eq.mpr hid)]
  simp only [validate_order_total, calculate_order_total, itemsOf, hfind]
  by_cases htot : ord.total_amount =
      roundCents (((its.filter (fun i => i.order_id == oid)).map
        (fun i => (i.quantity : ℚ) * i.price_at_time)).sum)
  · rw [if_neg (by simpa using htot)]
    rw [show ({ ord with
        total_amount := roundCents (((its.filter (fun i => i.order_id == oid)).map
          (fun i => (i.quantity : ℚ) * i.price_at_time)).sum) } : OrderRow) = ord from by
      rw [← htot]]
  · rw [if_pos (by simpa using htot)]
    congr 1
    rw [List.map_append, map_eq_self_of _ os (fun o ho => by simp [hos o ho]),
      List.map_cons, List.map_nil, if_pos (beq_iff_eq.mpr hid)]

/-- A fold whose step fixes the accumulator on every listed element is the
identity. -/
theorem foldl_fixpoint {α β : Type} (f : β → α → β) (d : β) (l : List α)
    (h : ∀ r ∈ l, f d r = d) : l.foldl f d = d := by
  induction l with
  | nil => rfl
  | cons a t ih =>
      rw [List.foldl_cons, h a (List.mem_cons_self a t)]
      exact ih (fun r hr => h r (List.mem_cons_of_mem a hr))

/-- A nonempty multi-row item insert in the state shape of `createOrder`: all
rows land in the table, and the per-row trigger firings leave the order's total
at the recomputed sum over the inserted rows (old items reference other
orders). -/
theorem insertOrderItems_ctx (n : Nat) (os : List OrderRow) (ord : OrderRow)
    (its : List OrderItemRow) (oid : Nat) (rows : List OrderItemRow)
    (hid : ord.id = oid) (hos : ∀ o ∈ os, o.id ≠ oid)
    (hits : ∀ i ∈ its, i.order_id ≠ oid) (hrows : ∀ r ∈ rows, r.order_id = oid)
    (hne : rows ≠ []) :
    insertOrderItems { nextId := n, orders := os ++ [ord], order_items := its } rows =
      { nextId := n,
        orders := os ++ [{ ord with
          total_amount :=
            roundCents ((rows.map (fun i => (i.quantity : ℚ) * i.price_at_time)).sum) }],
        order_items := its ++ rows } := by
  cases rows with
  | nil => exact absurd rfl hne
  | cons r rest =>
    have hfilter : (its ++ r :: rest).filter (fun i => i.order_id == oid) = r :: rest := by
      rw [List.filter_append,
        List.filter_eq_nil_iff.mpr (fun i hi => by simp [hits i hi]),
        List.nil_append,
        List.filter_eq_self.mpr (fun x hx => by simp [hrows x hx])]
    simp only [insertOrderItems, List.foldl_cons]
    rw [hrows r (List.mem_cons_self r rest),
      validate_order_total_ctx n os ord (its ++ r :: rest) oid hid hos, hfilter]
    set total := roundCents (((r :: rest).map (fun i => (i.quantity : ℚ) * i.price_at_time)).sum)
      with htotal
    refine foldl_fixpoint _ _ rest (fun r' hr' => ?_)
    rw [hrows r' (List.mem_cons_of_mem r hr'),
      validate_order_total_ctx n os { ord with total_amount := total }
        (its ++ r :: rest) oid hid hos, hfilter]


/-- The complete success path of `createOrder` on a nonempty cart over a fresh
store: the order row is appended, its total settling at the trigger-recomputed
DECIMAL(10,2) sum over the stored (cent-rounded) item rows, the item rows are
appended, and the re-read result carries exactly those rows. -/
theorem createOrder_ok (u : Principal) (now : Nat) (od : OrderData) (cart : List CartItem)
    (db : DB) (hne : cart ≠ []) (hdb : db.fresh) :
    createOrder { orderInsertFails := false, itemsInsertFails := false }
        (some u) now od cart db =
      ({ data := some
          ({ id := db.nextId, customer_id := u.id,
             total_amount := roundCents ((cart.map
               (fun item => (item.quantity : ℚ) * roundCents item.price)).sum),
             status := "pending", shipping_address := od.shippingAddress,
             updated_at := now },
           cart.map (fun item =>
             { order_id := db.nextId, product_id := cartProductId item,
               quantity := item.quantity, price_at_time := roundCents item.price })),
         error := none },
       { nextId := db.nextId + 1,
         orders := db.orders ++
           [{ id := db.nextId, customer_id := u.id,
              total_amount := roundCents ((cart.map
                (fun item => (item.quantity : ℚ) * roundCents item.price)).sum),
              status := "pending", shipping_address := od.shippingAddress,
              updated_at := now }],
         order_items := db.order_items ++ cart.map (fun item =>
           { order_id := db.nextId, product_id := cartProductId item,
             quantity := item.quantity, price_at_time := roundCents item.price }) }) := by
  obtain ⟨ho, hi⟩ := hdb
  have hrowsne : cart.map (fun item =>
      ({ order_id := db.nextId, product_id := cartProductId item,
         quantity := item.quantity, price_at_time := roundCents item.price } :
        OrderItemRow)) ≠ [] := fun hmap => hne (by simpa using hmap)
  simp only [createOrder, Bool.false_eq_true, if_false]
  rw [insertOrderItems_ctx (db.nextId + 1) db.orders _ db.order_items db.nextId _ rfl
    (fun o ho' => Nat.ne_of_lt (ho o ho'))
    (fun i hi' => Nat.ne_of_lt (hi i hi'))
    (fun r hr => by obtain ⟨item, _, rfl⟩ := List.mem_map.mp hr; rfl)
    hrowsne]
  have hfind : (db.orders ++
      [({ id := db.nextId, customer_id := u.id,
          total_amount := roundCents ((cart.map
            (fun item => (item.quantity : ℚ) * roundCents item.price)).sum),
          status := "pending", shipping_address := od.shippingAddress,
          updated_at := now } : OrderRow)]).find? (fun o => o.id == db.nextId) =
        some { id := db.nextId, customer_id := u.id,
               total_amount := roundCents ((cart.map
                 (fun item => (item.quantity : ℚ) * roundCents item.price)).sum),
               status := "pending", shipping_address := od.shippingAddress,
               updated_at := now } := by
    rw [find?_append_right _ db.orders _ (fun o ho' => by simp [Nat.ne_of_lt (ho o ho')]),
      List.find?_cons_of_pos (p := fun r : OrderRow => r.id == db.nextId) _ (by simp)]
  have hitems : (db.order_items ++ cart.map (fun item =>
      ({ order_id := db.nextId, product_id := cartProductId item,
         quantity := item.quantity, price_at_time := roundCents item.price } :
        OrderItemRow))).filter (fun i => i.order_id == db.nextId) =
      cart.map (fun item =>
        ({ order_id := db.nextId, product_id := cartProductId item,
           quantity := item.quantity, price_at_time := roundCents item.price } :
          OrderItemRow)) := by
    rw [List.filter_append,
      List.filter_eq_nil_iff.mpr (fun i hi' => by simp [Nat.ne_of_lt (hi i hi')]),
      List.nil_append,
      List.filter_eq_self.mpr (fun x hx => by
        obtain ⟨item, _, rfl⟩ := List.mem_map.mp hx; simp)]
  rw [show ((cart.map (fun item =>
        ({ order_id := db.nextId, product_id := cartProductId item,
           quantity := item.quantity, price_at_time := roundCents item.price } :
          OrderItemRow))).map (fun i => (i.quantity : ℚ) * i.price_at_time)).sum =
      (cart.map (fun item => (item.quantity : ℚ) * roundCents item.price)).sum from by
    rw [List.map_map]
    rfl]
  simp only [getOrderById, findOrder, itemsOf]
  rw [hfind]
  simp only [hitems]

/-- The success path of `createOrder` on an empty cart over a fresh store: the
order row is appended with the rounded service-computed total and the item
insert inserts zero rows, so the trigger never fires; the re-read result is the
order with no items. -/
theorem createOrder_nil (u : Principal) (now : Nat) (od : OrderData)
    (db : DB) (hdb : db.fresh) :
    createOrder { orderInsertFails := false, itemsInsertFails := false }
        (some u) now od [] db =
      ({ data := some
          ({ id := db.nextId, customer_id := u.id, total_amount := 0,
             status := "pending", shipping_address := od.shippingAddress,
             updated_at := now }, []),
         error := none },
       { nextId := db.nextId + 1,
         orders := db.orders ++
           [{ id := db.nextId, customer_id := u.id, total_amount := 0,
              status := "pending", shipping_address := od.shippingAddress,
              updated_at := now }],
         order_items := db.order_items }) := by
  obtain ⟨ho, hi⟩ := hdb
  have hzero : roundCents (totalAmountOf []) = 0 := by
    simpa [totalAmountOf] using roundCents_zero
  have hfind : (db.orders ++
      [({ id := db.nextId, customer_id := u.id, total_amount := 0,
          status := "pending", shipping_address := od.shippingAddress,
          updated_at := now } : OrderRow)]).find? (fun o => o.id == db.nextId) =
        some { id := db.nextId, customer_id := u.id, total_amount := 0,
               status := "pending", shipping_address := od.shippingAddress,
               updated_at := now } := by
    rw [find?_append_right _ db.orders _ (fun o ho' => by simp [Nat.ne_of_lt (ho o ho')]),
      List.find?_cons_of_pos (p := fun r : OrderRow => r.id == db.nextId) _ (by simp)]
  have hitems : db.order_items.filter (fun i => i.order_id == db.nextId) = [] :=
    List.filter_eq_nil_iff.mpr (fun i hi' => by simp [Nat.ne_of_lt (hi i hi')])
  simp only [createOrder, Bool.false_eq_true, if_false, List.map_nil, insertOrderItems,
    List.foldl_nil, List.append_nil, hzero]
  simp only [getOrderById, findOrder, itemsOf]
  rw [hfind]
  simp only [hitems]


/-- DECIMAL(10,2) storage rounds 0.125 up to 0.13 (halves away from zero). -/
theorem roundCents_eighth : roundCents (1/8 : ℚ) = 13/100 := by
  unfold roundCents
  rw [if_pos (by norm_num),
    show ((1 : ℚ)/8 * 100 + 1/2) = ((13 : ℤ) : ℚ) by norm_num,
    Int.floor_intCast]
  norm_num

/-- A store holding one delivered order. -/
def deliveredDB : DB :=
  { nextId := 2,
    orders := [{ id := 1, customer_id := "u1", total_amount := 50, status := "delivered",
                 shipping_address := "a", updated_at := 0 }],
    order_items := [] }

/-- C1 counterexample: the pair (delivered, pending) is outside the allowed
transition set of the spec, yet `updateOrderStatus` succeeds on it and changes
the status, so the transition-closure claim fails on the code. -/
theorem updateOrderStatus_no_transition_guard :
    (("delivered", "pending") ∉ allowedTransitions) ∧
    (updateOrderStatus 7 1 "pending" deliveredDB).1.error = none ∧
    ((findOrder (updateOrderStatus 7 1 "pending" deliveredDB).2 1).map OrderRow.status =
      some "pending") := by
  refine ⟨by decide, ?_, ?_⟩ <;>
    simp [updateOrderStatus, deliveredDB, findOrder, validStatuses]

/-- C1 (amended): `updateOrderStatus` succeeds iff the requested status is one
of the five valid statuses and the order exists, independently of the current
status; a requested status outside the valid list fails with the invalid-status
error and leaves the store (hence status and updated_at) unchanged, and so does
a missing order. -/
theorem updateOrderStatus_validity (now orderId : Nat) (newStatus : String) (db : DB) :
    (((updateOrderStatus now orderId newStatus db).1.error = none) ↔
      (newStatus ∈ validStatuses ∧ (findOrder db orderId).isSome = true)) ∧
    (newStatus ∉ validStatuses →
      (updateOrderStatus now orderId newStatus db).1.error =
        some { message :=
          "Invalid status. Must be one of: pending, processing, shipped, delivered, cancelled" } ∧
      (updateOrderStatus now orderId newStatus db).2 = db) ∧
    ((findOrder db orderId).isSome = false →
      (updateOrderStatus now orderId newStatus db).2 = db) := by
  by_cases hc : newStatus ∈ validStatuses
  · cases hfo : findOrder db orderId with
    | none => simp [updateOrderStatus, hfo, hc]
    | some o => simp [updateOrderStatus, hfo, hc]
  · simp [updateOrderStatus, hc]

/-- C1 witness: the amended theorem applied at the status `archived`, which is
rejected and leaves the store unchanged. -/
theorem updateOrderStatus_validity_witness :
    ("archived" ∉ validStatuses) ∧
    ((updateOrderStatus 3 1 "archived" deliveredDB).1.error =
      some { message :=
        "Invalid status. Must be one of: pending, processing, shipped, delivered, cancelled" } ∧
     (updateOrderStatus 3 1 "archived" deliveredDB).2 = deliveredDB) :=
  ⟨by decide, (updateOrderStatus_validity 3 1 "archived" deliveredDB).2.1 (by decide)⟩

/-- C2 counterexample: `createOrder` with an empty cart succeeds (no
InvalidInput error) and creates an order row — with status pending and no line
items — contradicting the claim that it fails and creates no rows. -/
theorem createOrder_empty_cart_cex :
    ((createOrder { orderInsertFails := false, itemsInsertFails := false }
      (some { id := "u1", email := "e" }) 0 { shippingAddress := "123 Main St" }
      [] emptyDB).1.error = none) ∧
    ((createOrder { orderInsertFails := false, itemsInsertFails := false }
      (some { id := "u1", email := "e" }) 0 { shippingAddress := "123 Main St" }
      [] emptyDB).2.orders.map OrderRow.status = ["pending"]) ∧
    ((createOrder { orderInsertFails := false, itemsInsertFails := false }
      (some { id := "u1", email := "e" }) 0 { shippingAddress := "123 Main St" }
      [] emptyDB).2.order_items = []) := by
  refine ⟨?_, ?_, ?_⟩ <;> decide

/-- C2 (amended): `createOrder` with an empty cart does not fail: over any fresh
store it succeeds and appends one order row with total_amount 0 and status
pending, and creates no line-item rows (the zero-row item insert never fires
the per-row total trigger). -/
theorem createOrder_empty_cart_behavior (u : Principal) (now : Nat) (od : OrderData)
    (db : DB) (hdb : db.fresh) :
    (createOrder { orderInsertFails := false, itemsInsertFails := false }
      (some u) now od [] db).1.error = none ∧
    (createOrder { orderInsertFails := false, itemsInsertFails := false }
      (some u) now od [] db).2.orders =
      db.orders ++ [{ id := db.nextId, customer_id := u.id, total_amount := 0,
                      status := "pending", shipping_address := od.shippingAddress,
                      updated_at := now }] ∧
    (createOrder { orderInsertFails := false, itemsInsertFails := false }
      (some u) now od [] db).2.order_items = db.order_items := by
  rw [createOrder_nil u now od db hdb]
  exact ⟨rfl, rfl, rfl⟩

/-- C2 witness: the amended theorem applied at the empty store. -/
theorem createOrder_empty_cart_behavior_witness :
    emptyDB.fresh ∧
    ((createOrder { orderInsertFails := false, itemsInsertFails := false }
      (some { id := "u1", email := "e" }) 5 { shippingAddress := "123 Main St" }
      [] emptyDB).1.error = none ∧
     (createOrder { orderInsertFails := false, itemsInsertFails := false }
      (some { id := "u1", email := "e" }) 5 { shippingAddress := "123 Main St" }
      [] emptyDB).2.orders =
      emptyDB.orders ++ [{ id := emptyDB.nextId, customer_id := "u1", total_amount := 0,
                           status := "pending", shipping_address := "123 Main St",
                           updated_at := 5 }] ∧
     (createOrder { orderInsertFails := false, itemsInsertFails := false }
      (some { id := "u1", email := "e" }) 5 { shippingAddress := "123 Main St" }
      [] emptyDB).2.order_items = emptyDB.order_items) :=
  ⟨by decide, createOrder_empty_cart_behavior { id := "u1", email := "e" } 5
    { shippingAddress := "123 Main St" } emptyDB (by decide)⟩

/-- C3 counterexample: when the line-item insert fails after the order insert
succeeded, `createOrder` returns an error result, yet the order row (id 1, the
attempted order) remains in the store with no line items — an orphan order,
contradicting the claim that no row referencing the attempt exists afterwards. -/
theorem createOrder_partial_failure_cex :
    ((createOrder { orderInsertFails := false, itemsInsertFails := true }
      (some { id := "u1", email := "e" }) 0 { shippingAddress := "a" }
      [{ product_id := "p1", id := "p1", quantity := 1, price := 10 }] emptyDB).1.data =
        none) ∧
    (((createOrder { orderInsertFails := false, itemsInsertFails := true }
      (some { id := "u1", email := "e" }) 0 { shippingAddress := "a" }
      [{ product_id := "p1", id := "p1", quantity := 1, price := 10 }] emptyDB).1.error).isSome =
        true) ∧
    ((createOrder { orderInsertFails := false, itemsInsertFails := true }
      (some { id := "u1", email := "e" }) 0 { shippingAddress := "a" }
      [{ product_id := "p1", id := "p1", quantity := 1, price := 10 }] emptyDB).2.orders.map
        OrderRow.id = [1]) ∧
    ((createOrder { orderInsertFails := false, itemsInsertFails := true }
      (some { id := "u1", email := "e" }) 0 { shippingAddress := "a" }
      [{ product_id := "p1", id := "p1", quantity := 1, price := 10 }] emptyDB).2.order_items =
        []) := by
  refine ⟨?_, ?_, ?_, ?_⟩ <;> decide

/-- C3 (amended): a failure of the order insert itself returns an error and
leaves the store unchanged, but a failure of the line-item insert after a
successful order insert returns an error while the freshly inserted order row
stays behind with no line items referencing it. -/
theorem createOrder_failure_no_rollback (b : Bool) (u : Principal) (now : Nat)
    (od : OrderData) (cart : List CartItem) (db : DB) :
    (createOrder { orderInsertFails := true, itemsInsertFails := b } (some u) now od cart db =
      ({ data := none, error := some { message := "orders insert failed" } }, db)) ∧
    ((createOrder { orderInsertFails := false, itemsInsertFails := true }
        (some u) now od cart db).1.data = none ∧
     ((createOrder { orderInsertFails := false, itemsInsertFails := true }
        (some u) now od cart db).1.error).isSome = true ∧
     (createOrder { orderInsertFails := false, itemsInsertFails := true }
        (some u) now od cart db).2.orders =
       db.orders ++
         [{ id := db.nextId, customer_id := u.id,
            total_amount := roundCents (totalAmountOf cart),
            status := "pending", shipping_address := od.shippingAddress,
            updated_at := now }] ∧
     (createOrder { orderInsertFails := false, itemsInsertFails := true }
        (some u) now od cart db).2.order_items = db.order_items) :=
  ⟨rfl, rfl, rfl, rfl, rfl⟩

/-- C4 counterexample: a caller-supplied unit price of 0.125 (exact in binary
floating point) is stored as price_at_time 0.13 by the DECIMAL(10,2) column,
and the stored total becomes 0.13 — both differ from the exact caller-supplied
value and from the exact sum 0.125, refuting the claim as stated. -/
theorem createOrder_rounding_cex :
    ((createOrder { orderInsertFails := false, itemsInsertFails := false }
      (some { id := "u1", email := "e" }) 0 { shippingAddress := "a" }
      [{ product_id := "p1", id := "p1", quantity := 1, price := 1/8 }] emptyDB).1.data.map
        (fun x => (x.1.total_amount, x.2.map (fun i => i.price_at_time)))) =
      some (13/100, [13/100]) ∧
    ¬ ((13 : ℚ)/100 = 1/8) ∧
    (([{ product_id := "p1", id := "p1", quantity := 1, price := 1/8 }] : List CartItem).map
      (fun item => (item.quantity : ℚ) * item.price)).sum = 1/8 := by
  refine ⟨?_, by norm_num, by simp⟩
  rw [createOrder_ok { id := "u1", email := "e" } 0 { shippingAddress := "a" }
    [{ product_id := "p1", id := "p1", quantity := 1, price := 1/8 }] emptyDB
    (by simp) (by decide)]
  have he8 : roundCents ((8 : ℚ)⁻¹) = 13/100 := by
    rw [show ((8 : ℚ)⁻¹) = 1/8 by norm_num]
    exact roundCents_eighth
  have h13 : roundCents (13/100 : ℚ) = 13/100 :=
    roundCents_twoDecimal _ ⟨13, by norm_num⟩
  simp [he8, h13]

/-- C4 (amended): on the success path over a fresh store, with schema-valid
cart lines (positive quantity, nonnegative price) whose unit prices are at most
cent-precise — as every catalog price is, the price columns being
DECIMAL(10,2) — the order is stored with total_amount equal to the sum of
quantity times unit price over the supplied cart lines, status pending, and one
line item per cart line whose price_at_time is exactly the caller-supplied unit
price (never a fresh product lookup); for finer-grained prices the stored
values are the caller-supplied ones rounded to cents, still never a product
lookup. -/
theorem createOrder_total_status_price (u : Principal) (now : Nat) (od : OrderData)
    (cart : List CartItem) (db : DB) (hne : cart ≠ []) (hdb : db.fresh)
    (hv : ∀ item ∈ cart, 0 < item.quantity ∧ 0 ≤ item.price)
    (hc : ∀ item ∈ cart, TwoDecimal item.price) :
    ∃ row items,
      (createOrder { orderInsertFails := false, itemsInsertFails := false }
        (some u) now od cart db).1.data = some (row, items) ∧
      row.total_amount = (cart.map (fun item => (item.quantity : ℚ) * item.price)).sum ∧
      row.status = "pending" ∧
      items.map (fun i => i.price_at_time) = cart.map (fun item => item.price) ∧
      items.length = cart.length := by
  rw [createOrder_ok u now od cart db hne hdb]
  refine ⟨_, _, rfl, ?_, rfl, ?_, by simp⟩
  · have hm : cart.map (fun item => (item.quantity : ℚ) * roundCents item.price) =
        cart.map (fun item => (item.quantity : ℚ) * item.price) :=
      List.map_congr_left (fun item hi => by rw [roundCents_twoDecimal _ (hc item hi)])
    rw [hm, roundCents_twoDecimal _ (sum_qty_price_twoDecimal cart hc)]
  · rw [List.map_map]
    exact List.map_congr_left (fun item hi => by
      show roundCents item.price = item.price
      exact roundCents_twoDecimal _ (hc item hi))

/-- C4 witness: the amended theorem applied at a one-line cart priced 5.00 over
the empty store. -/
theorem createOrder_total_status_price_witness :
    ([{ product_id := "p1", id := "p1", quantity := 2, price := 5 }] ≠ ([] : List CartItem)) ∧
    emptyDB.fresh ∧
    (∀ item ∈ ([{ product_id := "p1", id := "p1", quantity := 2, price := 5 }] :
        List CartItem), 0 < item.quantity ∧ 0 ≤ item.price) ∧
    (∀ item ∈ ([{ product_id := "p1", id := "p1", quantity := 2, price := 5 }] :
        List CartItem), TwoDecimal item.price) ∧
    (∃ row items,
      (createOrder { orderInsertFails := false, itemsInsertFails := false }
        (some { id := "u1", email := "e" }) 0 { shippingAddress := "a" }
        [{ product_id := "p1", id := "p1", quantity := 2, price := 5 }] emptyDB).1.data =
          some (row, items) ∧
      row.total_amount =
        (([{ product_id := "p1", id := "p1", quantity := 2, price := 5 }] : List CartItem).map
          (fun item => (item.quantity : ℚ) * item.price)).sum ∧
      row.status = "pending" ∧
      items.map (fun i => i.price_at_time) =
        ([{ product_id := "p1", id := "p1", quantity := 2, price := 5 }] : List CartItem).map
          (fun item => item.price) ∧
      items.length = 1) := by
  have hv : ∀ item ∈ ([{ product_id := "p1", id := "p1", quantity := 2, price := 5 }] :
      List CartItem), 0 < item.quantity ∧ 0 ≤ item.price := by
    intro i hi
    simp only [List.mem_singleton] at hi
    subst hi
    exact ⟨by norm_num, by norm_num⟩
  have hc : ∀ item ∈ ([{ product_id := "p1", id := "p1", quantity := 2, price := 5 }] :
      List CartItem), TwoDecimal item.price := by
    intro i hi
    simp only [List.mem_singleton] at hi
    subst hi
    exact ⟨500, by norm_num⟩
  exact ⟨by decide, by decide, hv, hc,
    createOrder_total_status_price { id := "u1", email := "e" } 0 { shippingAddress := "a" }
      [{ product_id := "p1", id := "p1", quantity := 2, price := 5 }] emptyDB
      (by decide) (by decide) hv hc⟩

/-- The cart of spec Scenario A. -/
def scenarioACart : List CartItem :=
  [{ product_id := "p1", id := "p1", quantity := 2, price := 8999/100 },
   { product_id := "p2", id := "p2", quantity := 1, price := 19999/100 }]

/-- C5: placing Scenario A's cart yields an order with total_amount exactly
379.97, status pending, and exactly 2 line items. -/
theorem createOrder_scenarioA :
    ((createOrder { orderInsertFails := false, itemsInsertFails := false }
      (some { id := "u1", email := "u1@example.com" }) 0 { shippingAddress := "123 Main St" }
      scenarioACart emptyDB).1.data.map
        (fun x => (x.1.total_amount, x.1.status, x.2.length))) =
      some (37997/100, "pending", 2) := by
  rw [createOrder_ok { id := "u1", email := "u1@example.com" } 0
    { shippingAddress := "123 Main St" } scenarioACart emptyDB
    (by simp [scenarioACart]) (by decide)]
  have h1 : roundCents (8999/100 : ℚ) = 8999/100 :=
    roundCents_twoDecimal _ ⟨8999, by norm_num⟩
  have h2 : roundCents (19999/100 : ℚ) = 19999/100 :=
    roundCents_twoDecimal _ ⟨19999, by norm_num⟩
  have h3 : roundCents (37997/100 : ℚ) = 37997/100 :=
    roundCents_twoDecimal _ ⟨37997, by norm_num⟩
  simp [scenarioACart, h1, h2]
  rw [show ((2 : ℚ) * (8999/100) + (19999/100)) = 37997/100 by norm_num, h3]

/-- C6 counterexample: a cart line with unit price 0.125 (exact in both binary
and decimal) makes the computed total 0.125, which has three decimal digits: the
computation applies no 2-digit rounding at all. -/
theorem totalAmount_three_decimals_cex :
    totalAmountOf [{ product_id := "p1", id := "p1", quantity := 1, price := 1/8 }] = 1/8 ∧
    ¬ TwoDecimal
      (totalAmountOf [{ product_id := "p1", id := "p1", quantity := 1, price := 1/8 }]) := by
  have h : totalAmountOf [{ product_id := "p1", id := "p1", quantity := 1, price := 1/8 }] =
      1/8 := by
    simp [totalAmountOf]
  refine ⟨h, ?_⟩
  rw [h]
  rintro ⟨n, hn⟩
  have h2 : (2 * n : ℚ) = 25 := by field_simp at hn; linarith
  have h3 : (2 * n : ℤ) = 25 := by exact_mod_cast h2
  omega

/-- C6 (amended): the order-total computation performs no rounding — it returns
the exact sum of the quantity times price products — so the total has at most
two decimal digits exactly when the supplied prices guarantee it, in particular
whenever every supplied unit price has at most two decimal digits. -/
theorem totalAmount_no_rounding (cart : List CartItem)
    (h : ∀ item ∈ cart, TwoDecimal item.price) :
    totalAmountOf cart = (cart.map (fun item => item.price * (item.quantity : ℚ))).sum ∧
    TwoDecimal (totalAmountOf cart) := by
  refine ⟨totalAmountOf_eq_sum cart, ?_⟩
  rw [totalAmountOf_eq_sum cart]
  exact sum_twoDecimal cart h

/-- A one-line cart with a cent-precision price. -/
def quarterCart : List CartItem :=
  [{ product_id := "p1", id := "p1", quantity := 3, price := 25/100 }]

/-- C6 witness: the amended theorem applied at a cart priced 0.25. -/
theorem totalAmount_no_rounding_witness :
    (∀ item ∈ quarterCart, TwoDecimal item.price) ∧
    (totalAmountOf quarterCart =
      (quarterCart.map (fun item => item.price * (item.quantity : ℚ))).sum ∧
     TwoDecimal (totalAmountOf quarterCart)) := by
  have h : ∀ item ∈ quarterCart, TwoDecimal item.price := by
    intro i hi
    simp only [quarterCart, List.mem_singleton] at hi
    subst hi
    exact ⟨25, by norm_num⟩
  exact ⟨h, totalAmount_no_rounding quarterCart h⟩

/-- C7: `cancelOrder` succeeds iff the order exists with status pending or
processing; with an existing order in any other status it fails with exactly
the message of the code and leaves the store unchanged; on success the order's
status becomes cancelled while total_amount is untouched. -/
theorem cancelOrder_spec (now orderId : Nat) (db : DB) :
    (((cancelOrder now orderId db).1.error = none) ↔
      ∃ o, findOrder db orderId = some o ∧
        (o.status = "pending" ∨ o.status = "processing")) ∧
    (∀ o, findOrder db orderId = some o →
      ¬ (o.status = "pending" ∨ o.status = "processing") →
      (cancelOrder now orderId db).1.error =
        some { message := "Only pending or processing orders can be cancelled" } ∧
      (cancelOrder now orderId db).2 = db) ∧
    (findOrder db orderId = none → (cancelOrder now orderId db).2 = db) ∧
    (∀ o, findOrder db orderId = some o →
      (o.status = "pending" ∨ o.status = "processing") →
      findOrder (cancelOrder now orderId db).2 orderId =
        some { o with status := "cancelled", updated_at := now }) := by
  cases hfo : findOrder db orderId with
  | none =>
      refine ⟨?_, ?_, ?_, ?_⟩
      · simp [cancelOrder, getOrderById, hfo]
      · intro o ho; cases ho
      · intro _; simp [cancelOrder, getOrderById, hfo]
      · intro o ho; cases ho
  | some o =>
      have hoid : o.id = orderId := by
        have := List.find?_some hfo
        simpa using this
      by_cases hs : o.status = "pending" ∨ o.status = "processing"
      · have hcont : (["pending", "processing"] : List String).contains o.status = true := by
          rcases hs with h | h <;> simp [h]
        have hval : validStatuses.contains "cancelled" = true := by decide
        have hco := cancelOrder_guard_pass now orderId db o hfo hcont
        have hup := updateOrderStatus_found now orderId "cancelled" db o hval hfo
        refine ⟨?_, ?_, ?_, ?_⟩
        · rw [hco, hup]
          exact iff_of_true rfl ⟨o, rfl, hs⟩
        · intro o' ho' hns
          cases ho'
          exact absurd hs hns
        · intro h; simp at h
        · intro o' ho' _
          cases ho'
          rw [hco, hup]
          have hfu := find?_update db.orders orderId
            { o with status := "cancelled", updated_at := now } hoid
          simp only [findOrder] at hfo ⊢
          rw [hfu, hfo]
          simp
      · have hcont : (["pending", "processing"] : List String).contains o.status = false := by
          simp
          push_neg at hs
          exact hs
        have hco := cancelOrder_guard_fail now orderId db o hfo hcont
        refine ⟨?_, ?_, ?_, ?_⟩
        · rw [hco]
          constructor
          · intro h; simp at h
          · rintro ⟨o', ho', hs'⟩
            cases ho'
            exact absurd hs' hs
        · intro o' ho' _
          cases ho'
          rw [hco]
          exact ⟨rfl, rfl⟩
        · intro h; simp at h
        · intro o' ho' hs'
          cases ho'
          exact absurd hs' hs

/-- A store holding one pending order. -/
def pendingDB : DB :=
  { nextId := 2,
    orders := [{ id := 1, customer_id := "u1", total_amount := 50, status := "pending",
                 shipping_address := "a", updated_at := 0 }],
    order_items := [] }

/-- C7 witness: cancelling a pending order turns it cancelled with the same
total_amount. -/
theorem cancelOrder_spec_witness :
    (findOrder pendingDB 1 =
      some { id := 1, customer_id := "u1", total_amount := 50, status := "pending",
             shipping_address := "a", updated_at := 0 }) ∧
    findOrder (cancelOrder 9 1 pendingDB).2 1 =
      some { id := 1, customer_id := "u1", total_amount := 50, status := "cancelled",
             shipping_address := "a", updated_at := 9 } :=
  ⟨rfl,
    (cancelOrder_spec 9 1 pendingDB).2.2.2
      { id := 1, customer_id := "u1", total_amount := 50, status := "pending",
        shipping_address := "a", updated_at := 0 }
      rfl (Or.inl rfl)⟩

/-- C8: an unauthenticated `createOrder` call returns the Unauthorized failure
as a discriminated result with null data — not a throw — and leaves the store
untouched, whatever the persistence oracle, cart and store are. -/
theorem createOrder_unauthenticated (env : PersistEnv) (now : Nat) (od : OrderData)
    (cart : List CartItem) (db : DB) :
    createOrder env none now od cart db =
      ({ data := none,
         error := some { message := "User must be authenticated to create an order" } },
       db) := rfl

/-- C9: `canCancelOrder` is total and returns true exactly on a present order
whose status is pending or processing; a null or undefined argument yields
false. -/
theorem canCancelOrder_spec (order : Option OrderRow) :
    canCancelOrder order = true ↔
      ∃ o, order = some o ∧ (o.status = "pending" ∨ o.status = "processing") := by
  cases order with
  | none => simp [canCancelOrder]
  | some o => simp [canCancelOrder]

/-- C10: `getOrderStats` applies no status filter: totalSpent is the sum of
total_amount over every one of the principal's orders (cancelled included),
totalOrders counts them all, and — whenever every status is one of the five
valid ones — the five per-status counts sum to totalOrders. -/
theorem getOrderStats_spec (u : Principal) (db : DB)
    (h : ∀ o ∈ db.orders.filter (fun o => o.customer_id == u.id),
      o.status ∈ validStatuses) :
    ∃ s, getOrderStats (some u) db = { data := some s, error := none } ∧
      s.totalSpent = ((db.orders.filter (fun o => o.customer_id == u.id)).map
        (fun o => o.total_amount)).sum ∧
      s.totalOrders = (db.orders.filter (fun o => o.customer_id == u.id)).length ∧
      s.ordersByStatus.pending + s.ordersByStatus.processing + s.ordersByStatus.shipped +
        s.ordersByStatus.delivered + s.ordersByStatus.cancelled = s.totalOrders := by
  refine ⟨_, rfl, ?_, rfl, ?_⟩
  · simpa using foldl_add_map (fun o : OrderRow => o.total_amount)
      (db.orders.filter (fun o => o.customer_id == u.id)) 0
  · exact filter_status_length_sum _ h

/-- A store with two orders of customer u1 (one cancelled) and one of u2. -/
def statsDB : DB :=
  { nextId := 4,
    orders := [{ id := 1, customer_id := "u1", total_amount := 10, status := "pending",
                 shipping_address := "a", updated_at := 0 },
               { id := 2, customer_id := "u1", total_amount := 20, status := "cancelled",
                 shipping_address := "a", updated_at := 0 },
               { id := 3, customer_id := "u2", total_amount := 40, status := "shipped",
                 shipping_address := "a", updated_at := 0 }],
    order_items := [] }

/-- C10 witness: the theorem applied at a store that includes a cancelled
order. -/
theorem getOrderStats_spec_witness :
    (∀ o ∈ statsDB.orders.filter (fun o => o.customer_id == "u1"),
      o.status ∈ validStatuses) ∧
    (∃ s, getOrderStats (some { id := "u1", email := "e" }) statsDB =
        { data := some s, error := none } ∧
      s.totalSpent = ((statsDB.orders.filter (fun o => o.customer_id == "u1")).map
        (fun o => o.total_amount)).sum ∧
      s.totalOrders = (statsDB.orders.filter (fun o => o.customer_id == "u1")).length ∧
      s.ordersByStatus.pending + s.ordersByStatus.processing + s.ordersByStatus.shipped +
        s.ordersByStatus.delivered + s.ordersByStatus.cancelled = s.totalOrders) :=
  ⟨by decide, getOrderStats_spec { id := "u1", email := "e" } statsDB (by decide)⟩

end BuildFast
